import Mathlib

/-!
Verification of the Slitherpunk snake-game rules engine
(`src/hooks/useSnakeGame.ts`, final revision of the hook).

The embedding below translates the hook's game logic into pure Lean
functions.  React `useState` state is collected in a `GameState` record and
each handler becomes a state-transformer.  JavaScript numbers are modelled
as `Int` for coordinates/times and as `ℚ` for the score (the score code
path adds the exact dyadic `1/2`, which `ℚ` represents exactly).
`Math.random()`-driven choices are passed in explicitly: an index for the
uniformly chosen element of a list, a rational in `[0,1)` for threshold
comparisons, and a list of successive `getRandomGridCoords()` samples for
the rejection-sampling loop (the loop in the source is unbounded, so the
model returns `none` when the supplied samples are exhausted — `none`
models the loop still running).
-/

namespace Slitherpunk

/-- `GRID_SIZE` from `src/constants.ts`. -/
def GRID_SIZE : Int := 20

/-- `CANVAS_WIDTH` from `src/constants.ts`. -/
def CANVAS_WIDTH : Int := 400

/-- `CANVAS_HEIGHT` from `src/constants.ts`. -/
def CANVAS_HEIGHT : Int := 400

/-- `LEFT_KEY` key code from `src/constants.ts`. -/
def LEFT_KEY : Nat := 37

/-- `UP_KEY` key code from `src/constants.ts`. -/
def UP_KEY : Nat := 38

/-- `RIGHT_KEY` key code from `src/constants.ts`. -/
def RIGHT_KEY : Nat := 39

/-- `DOWN_KEY` key code from `src/constants.ts`. -/
def DOWN_KEY : Nat := 40

/-- A grid position, used for snake segments, food and power-ups
(`SnakeSegment` / `Food` / `Position` in `src/types.ts`). -/
structure Pos where
  x : Int
  y : Int
deriving DecidableEq, Repr

/-- `PowerUpType` from `src/types.ts`. -/
inductive PowerUpType where
  | ghostTime
  | magnetHead
  | doubleScore
  | goldenApple
  | speedBoost
  | snailTime
  | mysteryBox
  | blackoutMode
deriving DecidableEq, Repr

open PowerUpType

/-- A spawned power-up sitting on the grid (`PowerUp` in the hook,
spread with its grid coordinates). -/
structure PowerUp where
  x : Int
  y : Int
  type : PowerUpType
  endTime : Int
  isInstant : Bool
deriving DecidableEq, Repr

/-- `ActivePowerUp` as constructed by `applyPowerUpEffect` in the final
revision: kind, activation instant, expiry instant, instant flag, and the
grid coordinates copied from the collected power-up. -/
structure ActivePowerUp where
  type : PowerUpType
  startTime : Int
  endTime : Int
  isInstant : Bool
  x : Int
  y : Int
deriving DecidableEq, Repr

/-- The four movement directions. -/
inductive Dir where
  | up
  | down
  | left
  | right
deriving DecidableEq, Repr

/-- The `useState` variables of the hook, plus the
`changingDirectionRef` per-tick direction latch. -/
structure GameState where
  snake : List Pos
  food : Option Pos
  powerUp : Option PowerUp
  activePowerUp : Option ActivePowerUp
  direction : Dir
  score : ℚ
  isGameOver : Bool
  isGameStarted : Bool
  gameMessage : String
  changingDirection : Bool
deriving DecidableEq

/-- `POWERUP_DURATIONS` of the final hook revision (ms; 0 means instant). -/
def POWERUP_DURATIONS : PowerUpType → Int
  | ghostTime => 8000
  | magnetHead => 10000
  | doubleScore => 8000
  | speedBoost => 6000
  | snailTime => 12000
  | blackoutMode => 8000
  | goldenApple => 0
  | mysteryBox => 0

/-- `POWERUP_SPAWN_CHANCES` (out of 100). -/
def POWERUP_SPAWN_CHANCES : PowerUpType → ℚ
  | ghostTime => 12
  | magnetHead => 15
  | doubleScore => 18
  | goldenApple => 8
  | speedBoost => 12
  | snailTime => 10
  | mysteryBox => 5
  | blackoutMode => 8

/-- The `types` array sampled by `generateCollectible`, in source order. -/
def collectibleTypes : List PowerUpType :=
  [ghostTime, magnetHead, doubleScore, goldenApple, speedBoost, snailTime,
   mysteryBox, blackoutMode]

/-- `Object.keys(POWERUP_DURATIONS)` filtered to drop `mysteryBox`, in the
insertion order of the source object literal: the candidate list the
mystery box redirects into. -/
def availablePowerUps : List PowerUpType :=
  [ghostTime, magnetHead, doubleScore, speedBoost, snailTime, blackoutMode,
   goldenApple]

/-- The identifier string of a power-up kind, as interpolated into
template literals by the source. -/
def kindName : PowerUpType → String
  | ghostTime => "ghostTime"
  | magnetHead => "magnetHead"
  | doubleScore => "doubleScore"
  | goldenApple => "goldenApple"
  | speedBoost => "speedBoost"
  | snailTime => "snailTime"
  | mysteryBox => "mysteryBox"
  | blackoutMode => "blackoutMode"

/-- The `messages` record of `applyPowerUpEffect`. -/
def powerUpMessage : PowerUpType → String
  | ghostTime => "Ghost Mode: Pass through walls and yourself!"
  | magnetHead => "Magnet Head: Food is drawn to you!"
  | doubleScore => "Double Score: All food worth 2x points!"
  | speedBoost => "Speed Boost: Lightning fast!"
  | snailTime => "Snail Time: Slow but double points!"
  | blackoutMode => "Blackout Mode: Limited vision!"
  | goldenApple => "Golden Apple! +5 points!"
  | mysteryBox => "Mystery Box revealed!"

/-- `activePowerUp && activePowerUp.type === k`: whether the active
power-up (if any) has kind `k`. -/
def isActiveType (apu : Option ActivePowerUp) (k : PowerUpType) : Bool :=
  match apu with
  | some a => a.type == k
  | none => false

/-- One step of the snake head in the current direction
(the `switch (direction)` block of `update`). -/
def moveHead (d : Dir) (p : Pos) : Pos :=
  match d with
  | Dir.up => { p with y := p.y - GRID_SIZE }
  | Dir.down => { p with y := p.y + GRID_SIZE }
  | Dir.left => { p with x := p.x - GRID_SIZE }
  | Dir.right => { p with x := p.x + GRID_SIZE }

/-- `wrapPosition` of the final revision: maps an out-of-range coordinate
to the opposite edge (used only for ghost-mode movement). -/
def wrapPosition (p : Pos) : Pos :=
  let wrappedX : Int :=
    if p.x < 0 then CANVAS_WIDTH - GRID_SIZE
    else if CANVAS_WIDTH ≤ p.x then 0
    else p.x
  let wrappedY : Int :=
    if p.y < 0 then CANVAS_HEIGHT - GRID_SIZE
    else if CANVAS_HEIGHT ≤ p.y then 0
    else p.y
  { x := wrappedX, y := wrappedY }

/-- The post-movement head of a tick: one step in the current direction,
wrapped at the edges when ghost mode is active. -/
def nextHead (s : GameState) (prevHead : Pos) : Pos :=
  let moved := moveHead s.direction prevHead
  if isActiveType s.activePowerUp ghostTime then wrapPosition moved else moved

/-- `checkCollision` of the final revision (the snake-array version used
by `update`): ghost mode suppresses every collision; otherwise wall
collision is checked first, then self collision of the head against the
body.  On an empty array the source compares `undefined` coordinates,
every comparison is false, and it returns false. -/
def checkCollision (activePowerUp : Option ActivePowerUp)
    (currentSnake : List Pos) : Bool :=
  if isActiveType activePowerUp ghostTime then false
  else
    match currentSnake with
    | [] => false
    | head :: body =>
      if head.x < 0 || CANVAS_WIDTH ≤ head.x || head.y < 0 || CANVAS_HEIGHT ≤ head.y then
        true
      else
        body.any fun seg => head.x == seg.x && head.y == seg.y

/-- `checkCollisions (head, body)` of the final revision, the explicit
head/body variant exported to the UI. -/
def checkCollisions (activePowerUp : Option ActivePowerUp)
    (head : Pos) (body : List Pos) : Bool :=
  if isActiveType activePowerUp ghostTime then false
  else if head.x < 0 || CANVAS_WIDTH ≤ head.x || head.y < 0 || CANVAS_HEIGHT ≤ head.y then
    true
  else
    body.any fun seg => seg.x == head.x && seg.y == head.y

/-- `applyPowerUpEffect` of the final revision.  `mysteryChoice` is the
`Math.floor(Math.random() * availablePowerUps.length)` draw (only used
when the collected kind is `mysteryBox`), `now` is `Date.now()`.
A mystery box first re-targets a non-mysteryBox kind and writes the
reveal message; golden apple then adds 5 points instantly; every other
kind becomes the active power-up (carrying the grid coordinates of the
collected power-up, defaulting to 0) and the kind's message is written. -/
def applyPowerUpEffect (powerUpType : PowerUpType) (mysteryChoice : Fin 7)
    (now : Int) (s : GameState) : GameState :=
  let k : PowerUpType :=
    if powerUpType == mysteryBox then
      availablePowerUps.get ⟨mysteryChoice.1, mysteryChoice.2⟩
    else powerUpType
  let s1 : GameState :=
    if powerUpType == mysteryBox then
      { s with gameMessage := "Mystery Box revealed: " ++ kindName k ++ "!" }
    else s
  if k == goldenApple then
    { s1 with score := s1.score + 5,
              gameMessage := "Golden Apple! +5 points!",
              powerUp := none }
  else
    let duration := POWERUP_DURATIONS k
    { s1 with
        activePowerUp := some
          { type := k, startTime := now, endTime := now + duration,
            isInstant := duration == 0,
            x := (s1.powerUp.map PowerUp.x).getD 0,
            y := (s1.powerUp.map PowerUp.y).getD 0 },
        powerUp := none,
        gameMessage := powerUpMessage k }

/-- `generateCollectiblePosition`: the do-while rejection-sampling loop.
`draws` is the stream of successive `getRandomGridCoords()` samples the
loop examines; the source loop is unbounded, so a `none` result means the
loop has not terminated within the supplied samples (there is no retry
bound and no fallback in the source). -/
def generateCollectiblePosition (currentSnake : List Pos)
    (currentFood : Option Pos) (currentPowerUp : Option PowerUp) :
    List Pos → Option Pos
  | [] => none
  | cand :: rest =>
    let collisionDetected : Bool :=
      (currentSnake.any fun seg => seg.x == cand.x && seg.y == cand.y)
      || (currentFood.any fun f => f.x == cand.x && f.y == cand.y)
      || (currentPowerUp.any fun p => p.x == cand.x && p.y == cand.y)
    if collisionDetected then
      generateCollectiblePosition currentSnake currentFood currentPowerUp rest
    else some cand

/-- `generateCollectible` of the final revision: clears both collectibles,
uniformly picks a candidate kind (`typeIdx`), spawns a power-up when the
roll beats that kind's spawn chance, otherwise spawns food; the position
comes from `generateCollectiblePosition(currentSnake, null, null)`. -/
def generateCollectible (typeIdx : Fin 8) (roll : ℚ) (draws : List Pos)
    (now : Int) (currentSnake : List Pos) (s : GameState) : Option GameState :=
  let s1 : GameState := { s with food := none, powerUp := none }
  let randomType := collectibleTypes.get ⟨typeIdx.1, typeIdx.2⟩
  let shouldSpawnPowerUp : Bool :=
    decide (roll < POWERUP_SPAWN_CHANCES randomType / 100)
  match generateCollectiblePosition currentSnake none none draws with
  | none => none
  | some pos =>
    if shouldSpawnPowerUp then
      let newPU : PowerUp :=
        { x := pos.x, y := pos.y, type := randomType,
          endTime := now + POWERUP_DURATIONS randomType,
          isInstant := POWERUP_DURATIONS randomType == 0 }
      some { s1 with powerUp := some newPU }
    else
      some { s1 with food := some pos }

/-- The randomness a single `update` tick may consume. -/
structure TickRand where
  mysteryChoice : Fin 7
  typeIdx : Fin 8
  roll : ℚ
  draws : List Pos

/-- The food-hit test of a tick, exactly the
`food && head.x === food.x && head.y === food.y` condition of `update`. -/
def tickFoodHit (s : GameState) : Bool :=
  match s.snake with
  | [] => false
  | prevHead :: _ =>
    let head := nextHead s prevHead
    s.food.any fun f => f.x == head.x && f.y == head.y

/-- The power-up-hit test of a tick: reached only when the food test
failed, exactly as in the `else if` of `update`. -/
def tickPowerUpHit (s : GameState) : Bool :=
  match s.snake with
  | [] => false
  | prevHead :: _ =>
    let head := nextHead s prevHead
    !(s.food.any fun f => f.x == head.x && f.y == head.y)
      && s.powerUp.any fun p => p.x == head.x && p.y == head.y

/-- The consumption phase of `update`: moves the head, resolves
food/power-up pickup, and returns the state after consumption effects,
the candidate snake, and the `collectibleEaten` flag.  Food pickup keeps
the pushed head without popping the tail and adds `2` points under
doubleScore/snailTime, else `1/2` (the literal `1 / 2` of the source);
power-up pickup applies the effect and pops the tail; otherwise the tail
is popped for plain movement. -/
def tickEat (mysteryChoice : Fin 7) (now : Int) (s : GameState) :
    GameState × List Pos × Bool :=
  match s.snake with
  | [] => (s, [], false)
  | prevHead :: _ =>
    let head := nextHead s prevHead
    if s.food.any fun f => f.x == head.x && f.y == head.y then
      let pointsToAdd : ℚ :=
        if isActiveType s.activePowerUp doubleScore
            || isActiveType s.activePowerUp snailTime then 2 else 1 / 2
      ({ s with score := s.score + pointsToAdd, food := none },
       head :: s.snake, true)
    else
      match s.powerUp with
      | some pu =>
        if pu.x == head.x && pu.y == head.y then
          (applyPowerUpEffect pu.type mysteryChoice now s,
           (head :: s.snake).dropLast, true)
        else (s, (head :: s.snake).dropLast, false)
      | none => (s, (head :: s.snake).dropLast, false)

/-- `update`, one tick of the game loop: the per-tick direction latch is
reset first; a finished game is left unchanged; otherwise consumption is
resolved (`tickEat`), the candidate snake is collision-checked against the
pre-tick active power-up (React state updates are queued, so the closure
still sees the pre-tick value even when a power-up was just collected);
on collision the pre-tick snake is kept and the game ends, else the
candidate is committed; finally the deferred `generateCollectible`
(queued with `setTimeout(..., 0)`) refills a collectible when one was
eaten.  `none` models the source crashing on an empty snake or the
unbounded placement loop not terminating. -/
def update (r : TickRand) (now : Int) (s : GameState) : Option GameState :=
  let s0 : GameState := { s with changingDirection := false }
  if s0.isGameOver then some s0
  else
    match s0.snake with
    | [] => none
    | _ :: _ =>
      let res := tickEat r.mysteryChoice now s0
      let s1 := res.1
      let newSnake := res.2.1
      let eaten := res.2.2
      let s2 : GameState :=
        if checkCollision s0.activePowerUp newSnake then
          { s1 with snake := s0.snake, isGameOver := true,
                    isGameStarted := false,
                    gameMessage :=
                      "Game Over! <br/> Final Score: " ++ toString s1.score }
        else { s1 with snake := newSnake }
      if eaten then generateCollectible r.typeIdx r.roll r.draws now newSnake s2
      else some s2

/-- The fixed initial 3-segment snake of `initGame`
(`Math.floor` on the non-negative constants is integer division). -/
def initialSnake : List Pos :=
  let initialHeadX : Int := (CANVAS_WIDTH / 2 - GRID_SIZE) / GRID_SIZE * GRID_SIZE
  let initialHeadY : Int := CANVAS_HEIGHT / 2 / GRID_SIZE * GRID_SIZE
  [{ x := initialHeadX, y := initialHeadY },
   { x := initialHeadX - GRID_SIZE, y := initialHeadY },
   { x := initialHeadX - 2 * GRID_SIZE, y := initialHeadY }]

/-- `initGame` of the final revision: full reset, then initial food placed
by `generateCollectiblePosition(initialSnake, null, null)`. -/
def initGame (draws : List Pos) : Option GameState :=
  match generateCollectiblePosition initialSnake none none draws with
  | none => none
  | some pos =>
    some { snake := initialSnake, direction := Dir.right, score := 0,
           isGameOver := false, isGameStarted := false,
           gameMessage := "Press any arrow key to start!",
           changingDirection := false, powerUp := none,
           activePowerUp := none, food := some pos }

/-- `changeDirection` of the final revision: bails out when the per-tick
latch is set or the game is over; auto-starts a not-yet-started game;
sets the latch; then applies the key unless it reverses the current
direction. -/
def changeDirection (keyCode : Nat) (s : GameState) : GameState :=
  if s.changingDirection || s.isGameOver then s
  else
    let s1 : GameState :=
      if !s.isGameStarted then
        { s with isGameStarted := true, gameMessage := "" }
      else s
    let s2 : GameState := { s1 with changingDirection := true }
    if keyCode == LEFT_KEY && !(s2.direction == Dir.right) then
      { s2 with direction := Dir.left }
    else if keyCode == UP_KEY && !(s2.direction == Dir.down) then
      { s2 with direction := Dir.up }
    else if keyCode == RIGHT_KEY && !(s2.direction == Dir.left) then
      { s2 with direction := Dir.right }
    else if keyCode == DOWN_KEY && !(s2.direction == Dir.up) then
      { s2 with direction := Dir.down }
    else s2

/-- One firing of the magnet sub-tick interval of the final revision:
moves the food one grid cell toward the head along the x-axis when the
x-offset is at least one cell, else along the y-axis when the y-offset is
at least one cell, then clamps into the canvas. -/
def magnetStep (head currentFood : Pos) : Pos :=
  let dx := head.x - currentFood.x
  let dy := head.y - currentFood.y
  let moved : Pos :=
    if GRID_SIZE ≤ |dx| then
      { currentFood with
          x := currentFood.x + (if 0 < dx then GRID_SIZE else -GRID_SIZE) }
    else if GRID_SIZE ≤ |dy| then
      { currentFood with
          y := currentFood.y + (if 0 < dy then GRID_SIZE else -GRID_SIZE) }
    else currentFood
  { x := max 0 (min (CANVAS_WIDTH - GRID_SIZE) moved.x),
    y := max 0 (min (CANVAS_HEIGHT - GRID_SIZE) moved.y) }

/-- The `dx`/`dy` loop offsets `-3 .. 3` of `getVisibleCells`. -/
def visionOffsets : List Int := [-3, -2, -1, 0, 1, 2, 3]

/-- `getVisibleCells` of the final revision: empty unless blackout mode is
the active power-up; otherwise every in-canvas cell whose offset from the
head is at most the vision radius 3 (in grid units).  The source compares
`Math.sqrt(dx*dx + dy*dy) <= 3`; for the integer offsets in range this is
exactly `dx² + dy² ≤ 9` (IEEE `sqrt` is correctly rounded and `√10 > 3`). -/
def getVisibleCells (activePowerUp : Option ActivePowerUp)
    (snakeHead : Pos) : List Pos :=
  if !isActiveType activePowerUp blackoutMode then []
  else
    visionOffsets.flatMap fun dx =>
      visionOffsets.flatMap fun dy =>
        if dx * dx + dy * dy ≤ 9 then
          let x := snakeHead.x + dx * GRID_SIZE
          let y := snakeHead.y + dy * GRID_SIZE
          if 0 ≤ x ∧ x < CANVAS_WIDTH ∧ 0 ≤ y ∧ y < CANVAS_HEIGHT then
            [{ x := x, y := y }]
          else []
        else []

/-! ### Helper lemmas -/

/-- `update` resets the per-tick latch before reading any state, so every
tick coincides with the tick taken from the latch-cleared state.  Claim
theorems about a tick may therefore assume the latch is clear. -/
theorem update_eq_latch_cleared (r : TickRand) (now : Int) (s : GameState) :
    update r now s = update r now { s with changingDirection := false } := rfl

/-- Clearing an already-clear latch is the identity. -/
theorem latch_clear_id (s : GameState) (h : s.changingDirection = false) :
    { s with changingDirection := false } = s := by
  cases s
  simp_all

/-- `generateCollectible` only rewrites the two collectible slots and
never touches the snake, score or lifecycle flags. -/
theorem generateCollectible_some_fields (t : Fin 8) (roll : ℚ)
    (draws : List Pos) (now : Int) (cs : List Pos) (st st' : GameState)
    (h : generateCollectible t roll draws now cs st = some st') :
    st'.snake = st.snake ∧ st'.score = st.score
    ∧ st'.isGameOver = st.isGameOver ∧ st'.isGameStarted = st.isGameStarted := by
  unfold generateCollectible at h
  dsimp only at h
  split at h
  · exact absurd h (by simp)
  · split at h <;> (injection h with h; subst h; simp)

/-- `generateCollectible` fills exactly one collectible slot. -/
theorem generateCollectible_one_slot (t : Fin 8) (roll : ℚ)
    (draws : List Pos) (now : Int) (cs : List Pos) (st st' : GameState)
    (h : generateCollectible t roll draws now cs st = some st') :
    st'.food = none ∨ st'.powerUp = none := by
  unfold generateCollectible at h
  dsimp only at h
  split at h
  · exact absurd h (by simp)
  · split at h <;> (injection h with h; subst h)
    · exact Or.inl rfl
    · exact Or.inr rfl

/-! ### Concrete fixtures for evaluation -/

/-- A running mid-game state: the initial snake, food parked far away at
the origin, no power-ups, moving right. -/
def runState : GameState :=
  { snake := [{ x := 180, y := 200 }, { x := 160, y := 200 },
              { x := 140, y := 200 }],
    food := some { x := 0, y := 0 }, powerUp := none, activePowerUp := none,
    direction := Dir.right, score := 0, isGameOver := false,
    isGameStarted := true, gameMessage := "", changingDirection := false }

/-- Fixed randomness for evaluation ticks: the roll `1` never beats a
spawn chance (so food is spawned) and the single draw at the origin is
accepted unless occupied. -/
def tickRand0 : TickRand :=
  { mysteryChoice := 0, typeIdx := 3, roll := 1, draws := [{ x := 0, y := 0 }] }

/-- `runState` with the food directly in front of the head. -/
def c1State : GameState := { runState with food := some { x := 200, y := 200 } }

/-! ### Claims -/

/-- Claim C1 (code bug): on a food-eating tick the committed snake does
grow by one segment (head pushed, tail not popped), but with no
doubleScore/snailTime active the score increases by the literal `1 / 2`
of the source instead of the base food value `1` that the claim (and the
spec's design notes) require.  This theorem evaluates the tick at the
failing input: snake `[(180,200),(160,200),(140,200)]` moving right onto
food `(200,200)` with no active power-up yields length 4 but score
`1/2 ≠ 1`. -/
theorem C1_food_tick_half_point :
    (update tickRand0 0 c1State).map GameState.snake =
      some [{ x := 200, y := 200 }, { x := 180, y := 200 },
            { x := 160, y := 200 }, { x := 140, y := 200 }]
    ∧ (update tickRand0 0 c1State).map GameState.score = some (1 / 2)
    ∧ ¬ (1 / 2 : ℚ) = 1 := by
  have hroll : ¬((1 : ℚ) < POWERUP_SPAWN_CHANCES goldenApple / 100) := by
    norm_num [POWERUP_SPAWN_CHANCES]
  have h3 : ((3 : Fin 8) : Nat) = 3 := rfl
  refine ⟨?_, ?_, by norm_num⟩ <;>
    simp [update, tickEat, c1State, runState, tickRand0, nextHead, moveHead,
          isActiveType, checkCollision, generateCollectible,
          generateCollectiblePosition, collectibleTypes, hroll, h3,
          GRID_SIZE, CANVAS_WIDTH, CANVAS_HEIGHT]

/-- Claim C3: while the active power-up has kind ghostTime,
`checkCollision` returns false for every candidate snake — including one
whose head is out of grid bounds or coincides with a body segment — and
so does the exported head/body variant `checkCollisions`. -/
theorem C3_ghost_mode_no_collision (apu : ActivePowerUp)
    (h : apu.type = ghostTime) (candidate : List Pos)
    (head : Pos) (body : List Pos) :
    checkCollision (some apu) candidate = false
    ∧ checkCollisions (some apu) head body = false := by
  constructor <;> simp [checkCollision, checkCollisions, isActiveType, h]

/-- An active ghostTime power-up used as a concrete witness input. -/
def ghostActive : ActivePowerUp :=
  { type := ghostTime, startTime := 0, endTime := 8000, isInstant := false,
    x := 0, y := 0 }

/-- Witness for C3: a candidate whose head is both out of bounds and on
top of its own body still produces no collision under ghostTime. -/
theorem C3_ghost_mode_no_collision_witness :
    checkCollision (some ghostActive)
        [{ x := -20, y := 500 }, { x := -20, y := 500 }] = false
    ∧ checkCollisions (some ghostActive) { x := -20, y := 500 }
        [{ x := -20, y := 500 }] = false :=
  C3_ghost_mode_no_collision ghostActive rfl
    [{ x := -20, y := 500 }, { x := -20, y := 500 }]
    { x := -20, y := 500 } [{ x := -20, y := 500 }]

/-- The key code that requests the reverse of the given direction. -/
def reverseKey : Dir → Nat
  | Dir.up => DOWN_KEY
  | Dir.down => UP_KEY
  | Dir.left => RIGHT_KEY
  | Dir.right => LEFT_KEY

/-- Counterexample to claim C5: in `runState` (running, latch clear,
moving right) the reverse request `LEFT_KEY` leaves the direction
unchanged but does mutate observable state — the per-tick direction
latch flips from false to true, so the request is not a no-op. -/
theorem C5_counterexample :
    ¬ changeDirection LEFT_KEY runState = runState
    ∧ (changeDirection LEFT_KEY runState).direction = runState.direction
    ∧ runState.changingDirection = false
    ∧ (changeDirection LEFT_KEY runState).changingDirection = true
    ∧ runState.isGameStarted = true ∧ runState.isGameOver = false := by decide

/-- Claim C5 as amended: a direction-change request is a full no-op
exactly when the per-tick latch is already set or the game is Over.
Otherwise a reverse-of-current request leaves the direction and the over
flag unchanged, but it sets the per-tick latch and — when the game had
not started — auto-starts it (the final revision starts the game on any
first direction input instead of ignoring it). -/
theorem C5_amended_direction_change (keyCode : Nat) (s : GameState) :
    (s.changingDirection = true ∨ s.isGameOver = true →
      changeDirection keyCode s = s)
    ∧ (s.changingDirection = false → s.isGameOver = false →
        (changeDirection (reverseKey s.direction) s).direction = s.direction
        ∧ (changeDirection (reverseKey s.direction) s).isGameOver = false
        ∧ (changeDirection (reverseKey s.direction) s).isGameStarted = true
        ∧ (changeDirection (reverseKey s.direction) s).changingDirection = true) := by
  constructor
  · intro h
    unfold changeDirection
    rcases h with h | h <;> simp [h]
  · intro h1 h2
    cases hd : s.direction <;>
      simp [changeDirection, reverseKey, h1, h2, hd,
            LEFT_KEY, UP_KEY, RIGHT_KEY, DOWN_KEY] <;>
      split_ifs <;> simp_all

/-- Witness for C5 as amended, at `runState` and its reverse key. -/
theorem C5_amended_direction_change_witness :
    (changeDirection (reverseKey runState.direction) runState).direction
        = runState.direction
    ∧ (changeDirection (reverseKey runState.direction) runState).isGameOver = false
    ∧ (changeDirection (reverseKey runState.direction) runState).isGameStarted = true
    ∧ (changeDirection (reverseKey runState.direction) runState).changingDirection
        = true :=
  (C5_amended_direction_change LEFT_KEY runState).2 rfl rfl

/-- Counterexample to claim C7: with head `(60, 0)` and food `(40, 200)`
the y-offset (200) is larger than the x-offset (20), yet the magnet
sub-tick moves the food along the x-axis to `(60, 200)` instead of along
the larger-offset axis to `(40, 180)`. -/
theorem C7_counterexample :
    magnetStep { x := 60, y := 0 } { x := 40, y := 200 }
      = { x := 60, y := 200 }
    ∧ ¬ magnetStep { x := 60, y := 0 } { x := 40, y := 200 }
        = { x := 40, y := 180 } := by decide

/-- When the food test of a tick fires, `tickEat` pushes the moved head
without popping the tail and adds 2 or the literal 1/2 to the score. -/
theorem tickEat_food_eq (c : Fin 7) (now : Int) (s : GameState)
    (h : tickFoodHit s = true) :
    tickEat c now s =
      ({ s with
           score := s.score +
             (if isActiveType s.activePowerUp doubleScore
                 || isActiveType s.activePowerUp snailTime then 2 else 1 / 2),
           food := none },
       nextHead s (s.snake.headD { x := 0, y := 0 }) :: s.snake, true) := by
  unfold tickFoodHit at h
  unfold tickEat
  cases hs : s.snake with
  | nil => rw [hs] at h; exact absurd h (by simp)
  | cons h0 rest =>
    rw [hs] at h
    dsimp only at h ⊢
    simp [h]

/-- When the power-up test of a tick fires, `tickEat` applies the
power-up effect and pops the tail after pushing the moved head. -/
theorem tickEat_powerUp_eq (c : Fin 7) (now : Int) (s : GameState)
    (hf : tickFoodHit s = false) (hp : tickPowerUpHit s = true) :
    ∃ pu, s.powerUp = some pu ∧
      tickEat c now s =
        (applyPowerUpEffect pu.type c now s,
         (nextHead s (s.snake.headD { x := 0, y := 0 }) :: s.snake).dropLast,
         true) := by
  unfold tickFoodHit at hf
  unfold tickPowerUpHit at hp
  unfold tickEat
  cases hs : s.snake with
  | nil => rw [hs] at hp; exact absurd hp (by simp)
  | cons h0 rest =>
    rw [hs] at hf hp
    dsimp only at hf hp ⊢
    cases hpu : s.powerUp with
    | none => rw [hpu] at hp; simp [hf] at hp
    | some pu =>
      rw [hpu] at hp
      simp only [hf, Bool.not_false, Bool.true_and, Option.any_some] at hp
      refine ⟨pu, rfl, ?_⟩
      simp [hf, hp, hpu]

/-- When neither collectible test fires, `tickEat` only moves the
snake. -/
theorem tickEat_none_eq (c : Fin 7) (now : Int) (s : GameState)
    (hf : tickFoodHit s = false) (hp : tickPowerUpHit s = false) :
    tickEat c now s =
      (s, (nextHead s (s.snake.headD { x := 0, y := 0 }) :: s.snake).dropLast,
       false) := by
  unfold tickFoodHit at hf
  unfold tickPowerUpHit at hp
  unfold tickEat
  cases hs : s.snake with
  | nil => simp
  | cons h0 rest =>
    rw [hs] at hf hp
    dsimp only at hf hp ⊢
    cases hpu : s.powerUp with
    | none => simp [hf, hpu]
    | some pu =>
      rw [hpu] at hp
      simp only [hf, Bool.not_false, Bool.true_and, Option.any_some] at hp
      simp [hf, hp, hpu]

/-- The `collectibleEaten` flag equals the disjunction of the two hit
tests. -/
theorem tickEat_eaten_eq (c : Fin 7) (now : Int) (s : GameState) :
    (tickEat c now s).2.2 = (tickFoodHit s || tickPowerUpHit s) := by
  unfold tickEat tickFoodHit tickPowerUpHit
  cases hs : s.snake with
  | nil => simp
  | cons h0 rest =>
    dsimp only
    cases hpu : s.powerUp with
    | none => split <;> simp_all
    | some pu =>
      split <;> simp_all
      split <;> simp_all

/-- Characterization of a successful tick from a running, latch-clear
state: the snake is non-empty; on collision the pre-tick snake is kept
and the game ends with the post-consumption score; otherwise the
candidate snake is committed; an eating tick leaves at most one
collectible, a non-eating tick leaves both collectible slots as
consumption left them. -/
theorem update_char (r : TickRand) (now : Int) (s s' : GameState)
    (hlatch : s.changingDirection = false)
    (hover : s.isGameOver = false)
    (hupd : update r now s = some s') :
    ¬ s.snake = []
    ∧ (checkCollision s.activePowerUp (tickEat r.mysteryChoice now s).2.1 = true →
        s'.snake = s.snake ∧ s'.isGameOver = true ∧ s'.isGameStarted = false
        ∧ s'.score = (tickEat r.mysteryChoice now s).1.score)
    ∧ (checkCollision s.activePowerUp (tickEat r.mysteryChoice now s).2.1 = false →
        s'.snake = (tickEat r.mysteryChoice now s).2.1
        ∧ s'.score = (tickEat r.mysteryChoice now s).1.score)
    ∧ ((tickEat r.mysteryChoice now s).2.2 = true →
        s'.food = none ∨ s'.powerUp = none)
    ∧ ((tickEat r.mysteryChoice now s).2.2 = false →
        s'.food = (tickEat r.mysteryChoice now s).1.food
        ∧ s'.powerUp = (tickEat r.mysteryChoice now s).1.powerUp) := by
  unfold update at hupd
  rw [latch_clear_id s hlatch] at hupd
  dsimp only at hupd
  rw [hover] at hupd
  simp only [Bool.false_eq_true, if_false] at hupd
  cases hs : s.snake with
  | nil => rw [hs] at hupd; exact absurd hupd (by simp)
  | cons h0 rest =>
    rw [hs] at hupd
    dsimp only at hupd
    refine ⟨by simp [hs], ?_, ?_, ?_, ?_⟩ <;>
    cases he : (tickEat r.mysteryChoice now s).2.2 <;>
    rw [he] at hupd <;>
    cases hc : checkCollision s.activePowerUp (tickEat r.mysteryChoice now s).2.1 <;>
    rw [hc] at hupd <;>
    simp only [Bool.false_eq_true, Bool.true_eq_false, if_false, if_true,
               Option.some.injEq] at hupd <;>
    intro hcond
    all_goals
      first
        | exact Bool.noConfusion hcond
        | (rw [← hupd]; simp [hs])
        | (have hf := generateCollectible_some_fields _ _ _ _ _ _ _ hupd;
           have ho := generateCollectible_one_slot _ _ _ _ _ _ _ hupd;
           simp_all)



/-- A running state near the right wall with ghostTime active. -/
def ghostWrapState : GameState :=
  { runState with
      snake := [{ x := 380, y := 200 }, { x := 360, y := 200 },
                { x := 340, y := 200 }],
      activePowerUp := some ghostActive }

/-- Counterexample to claim C2: on a tick with ghostTime active, nothing
eaten and the head at the right edge, the committed head wraps to
`(0, 200)` — it does not move exactly one grid unit in the current
direction (which would give `(400, 200)`), so the head-movement clause of
the claim fails under ghost-mode wrap. -/
theorem C2_counterexample :
    (update tickRand0 0 ghostWrapState).map GameState.snake =
      some [{ x := 0, y := 200 }, { x := 380, y := 200 }, { x := 360, y := 200 }]
    ∧ ¬ ({ x := 0, y := 200 } : Pos)
        = moveHead ghostWrapState.direction { x := 380, y := 200 } := by
  constructor
  · decide
  · decide

/-- Claim C2 as amended: on every tick of a running game (latch-clear
start of tick) in which no food is eaten, the committed snake keeps its
length — whether nothing was eaten, a power-up was eaten, or the tick
ended in a collision (frozen snake).  When additionally no power-up was
eaten and the candidate does not collide, the committed head is the
one-unit step in the current direction, wrapped at the grid edges when
ghostTime is active; without ghostTime it is exactly the one-unit step. -/
theorem C2_amended_no_food_tick (r : TickRand) (now : Int) (s s' : GameState)
    (hlatch : s.changingDirection = false)
    (hover : s.isGameOver = false)
    (hnofood : tickFoodHit s = false)
    (hupd : update r now s = some s') :
    s'.snake.length = s.snake.length
    ∧ (tickPowerUpHit s = false →
        checkCollision s.activePowerUp (tickEat r.mysteryChoice now s).2.1 = false →
        s'.snake.head? = some (nextHead s (s.snake.headD { x := 0, y := 0 }))
        ∧ (isActiveType s.activePowerUp ghostTime = false →
            s'.snake.head? =
              some (moveHead s.direction (s.snake.headD { x := 0, y := 0 })))) := by
  obtain ⟨hne, hctrue, hcfalse, _, _⟩ := update_char r now s s' hlatch hover hupd
  cases hp : tickPowerUpHit s with
  | true =>
    obtain ⟨pu, hpu, heq⟩ := tickEat_powerUp_eq r.mysteryChoice now s hnofood hp
    constructor
    · cases hc : checkCollision s.activePowerUp (tickEat r.mysteryChoice now s).2.1 with
      | true => rw [(hctrue hc).1]
      | false =>
        rw [(hcfalse hc).1, heq]
        cases hsn : s.snake with
        | nil => exact absurd hsn hne
        | cons a l => simp
    · intro hpfalse
      exact Bool.noConfusion hpfalse
  | false =>
    have heq := tickEat_none_eq r.mysteryChoice now s hnofood hp
    constructor
    · cases hc : checkCollision s.activePowerUp (tickEat r.mysteryChoice now s).2.1 with
      | true => rw [(hctrue hc).1]
      | false =>
        rw [(hcfalse hc).1, heq]
        cases hsn : s.snake with
        | nil => exact absurd hsn hne
        | cons a l => simp
    · intro _ hc
      have h1 := (hcfalse hc).1
      rw [heq] at h1
      dsimp only at h1
      cases hsn : s.snake with
      | nil => exact absurd hsn hne
      | cons a l =>
        rw [hsn] at h1
        constructor
        · rw [h1]; simp
        · intro hg
          rw [h1]
          simp [nextHead, hg]

/-- The committed state of a plain (nothing-eaten) tick from `runState`. -/
def runStateMoved : GameState :=
  { runState with snake := [{ x := 200, y := 200 }, { x := 180, y := 200 },
                            { x := 160, y := 200 }] }

/-- Witness for C2 as amended at `runState`: a plain rightward tick. -/
theorem C2_amended_no_food_tick_witness :
    runStateMoved.snake.length = runState.snake.length
    ∧ (tickPowerUpHit runState = false →
        checkCollision runState.activePowerUp
          (tickEat tickRand0.mysteryChoice 0 runState).2.1 = false →
        runStateMoved.snake.head? =
          some (nextHead runState (runState.snake.headD { x := 0, y := 0 }))
        ∧ (isActiveType runState.activePowerUp ghostTime = false →
            runStateMoved.snake.head? =
              some (moveHead runState.direction
                (runState.snake.headD { x := 0, y := 0 })))) :=
  C2_amended_no_food_tick tickRand0 0 runState runStateMoved rfl rfl
    (by decide) (by decide)

/-- Claim C4: on a colliding tick of a running game the state transitions
to Over (`isGameOver` set, `isGameStarted` cleared), the published snake
is the pre-tick snake, and the score is locked at its current
post-consumption value; on a non-colliding tick the candidate snake is
committed (with the same score). -/
theorem C4_collision_freezes (r : TickRand) (now : Int) (s s' : GameState)
    (hlatch : s.changingDirection = false)
    (hover : s.isGameOver = false)
    (hupd : update r now s = some s') :
    (checkCollision s.activePowerUp (tickEat r.mysteryChoice now s).2.1 = true →
      s'.isGameOver = true ∧ s'.isGameStarted = false ∧ s'.snake = s.snake
      ∧ s'.score = (tickEat r.mysteryChoice now s).1.score)
    ∧ (checkCollision s.activePowerUp (tickEat r.mysteryChoice now s).2.1 = false →
      s'.snake = (tickEat r.mysteryChoice now s).2.1
      ∧ s'.score = (tickEat r.mysteryChoice now s).1.score) := by
  obtain ⟨_, hctrue, hcfalse, _, _⟩ := update_char r now s s' hlatch hover hupd
  exact ⟨fun hc => ⟨(hctrue hc).2.1, (hctrue hc).2.2.1, (hctrue hc).1,
    (hctrue hc).2.2.2⟩, hcfalse⟩

/-- A running state whose next rightward step hits the right wall. -/
def wallState : GameState :=
  { runState with snake := [{ x := 380, y := 200 }, { x := 360, y := 200 },
                            { x := 340, y := 200 }] }

/-- The game-over state the wall collision from `wallState` produces. -/
def wallStateOver : GameState :=
  { wallState with
      isGameOver := true, isGameStarted := false,
      gameMessage := "Game Over! <br/> Final Score: " ++ toString (0 : ℚ) }

/-- Witness for C4 at `wallState`: the wall tick freezes the snake and
ends the game. -/
theorem C4_collision_freezes_witness :
    wallStateOver.isGameOver = true ∧ wallStateOver.isGameStarted = false
    ∧ wallStateOver.snake = wallState.snake
    ∧ wallStateOver.score = (tickEat tickRand0.mysteryChoice 0 wallState).1.score :=
  (C4_collision_freezes tickRand0 0 wallState wallStateOver rfl rfl
    (by decide)).1 (by decide)


/-- All 400 cells the 20×20 grid has — exactly the positions
`getRandomGridCoords` can produce. -/
def gridCells : List Pos :=
  (List.range 20).flatMap fun i =>
    (List.range 20).map fun j => { x := 20 * (i : Int), y := 20 * (j : Int) }

/-- Claim C6 (code bug): `generateCollectiblePosition` is an unbounded
rejection-sampling loop with no retry limit and no exhaustive-scan
fallback.  On a full board — a snake occupying every grid cell — every
sample collides, so the loop never returns no matter how many samples are
drawn (`none` for every sample list models the loop still running). -/
theorem C6_placement_unbounded_on_full_grid (draws : List Pos)
    (hdraws : ∀ p ∈ draws, p ∈ gridCells) :
    generateCollectiblePosition gridCells none none draws = none := by
  induction draws with
  | nil => rfl
  | cons cand rest ih =>
    have hc : cand ∈ gridCells := hdraws cand (List.mem_cons_self cand rest)
    have hrest : ∀ p ∈ rest, p ∈ gridCells := fun p hp =>
      hdraws p (List.mem_cons_of_mem cand hp)
    have hany : (gridCells.any fun seg => seg.x == cand.x && seg.y == cand.y)
        = true :=
      List.any_eq_true.mpr ⟨cand, hc, by simp⟩
    unfold generateCollectiblePosition
    simp [hany, ih hrest]

/-- Witness for C6 at a concrete one-sample list. -/
theorem C6_placement_unbounded_witness :
    generateCollectiblePosition gridCells none none [{ x := 0, y := 0 }] = none :=
  C6_placement_unbounded_on_full_grid [{ x := 0, y := 0 }] (by decide)

/-- The mystery-box redirect list contains no mysteryBox. -/
theorem availablePowerUps_not_mysteryBox :
    ∀ j : Fin 7, ¬ availablePowerUps.get ⟨j.1, j.2⟩ = mysteryBox := by decide

/-- Claim C8: activating mysteryBox redirects to the uniformly re-sampled
kind `availablePowerUps[i]`, which is never mysteryBox: the resulting
state is exactly the full activation of the redirected kind (effect and
message included), so the resulting active power-up (if any — goldenApple
leaves the previous one) never has kind mysteryBox, assuming the previous
active power-up was not a mysteryBox (an invariant, since only
`applyPowerUpEffect` sets it). -/
theorem C8_mystery_box_redirect (i : Fin 7) (now : Int) (s : GameState)
    (hprev : ∀ a, s.activePowerUp = some a → ¬ a.type = mysteryBox) :
    (∀ a, (applyPowerUpEffect mysteryBox i now s).activePowerUp = some a →
        ¬ a.type = mysteryBox)
    ∧ applyPowerUpEffect mysteryBox i now s
        = applyPowerUpEffect (availablePowerUps.get ⟨i.1, i.2⟩) i now s
    ∧ ¬ availablePowerUps.get ⟨i.1, i.2⟩ = mysteryBox := by
  have hbeq : (availablePowerUps.get ⟨i.1, i.2⟩ == mysteryBox) = false := by
    simpa using availablePowerUps_not_mysteryBox i
  refine ⟨?_, ?_, availablePowerUps_not_mysteryBox i⟩
  · intro a ha
    unfold applyPowerUpEffect at ha
    simp only [beq_self_eq_true, eq_self_iff_true, if_true] at ha
    by_cases hg : (availablePowerUps.get ⟨i.1, i.2⟩ == goldenApple) = true
    · rw [if_pos hg] at ha
      exact hprev a ha
    · rw [if_neg hg] at ha
      injection ha with h
      rw [← h]
      exact availablePowerUps_not_mysteryBox i
  · unfold applyPowerUpEffect
    simp only [beq_self_eq_true, eq_self_iff_true, if_true, hbeq,
               Bool.false_eq_true, if_false]

/-- The design invariant of claim C9: food and an uncollected grid
power-up are never both present. -/
def atMostOneCollectible (s : GameState) : Prop :=
  s.food = none ∨ s.powerUp = none

/-- Claim C9: every operation preserves (or establishes) the at-most-one
collectible invariant — `initGame` spawns only food, a tick either keeps
the collectible slots of the consumption phase or refills exactly one
slot via `generateCollectible`, `generateCollectible` itself clears both
slots and fills exactly one, and a power-up activation clears the grid
power-up without touching food. -/
theorem C9_at_most_one_collectible :
    (∀ draws s', initGame draws = some s' → atMostOneCollectible s')
    ∧ (∀ (r : TickRand) (now : Int) (s s' : GameState), atMostOneCollectible s →
        update r now s = some s' → atMostOneCollectible s')
    ∧ (∀ (t : Fin 8) (roll : ℚ) (draws : List Pos) (now : Int)
        (cs : List Pos) (s s' : GameState),
        generateCollectible t roll draws now cs s = some s' →
        atMostOneCollectible s')
    ∧ (∀ (k : PowerUpType) (c : Fin 7) (now : Int) (s : GameState),
        atMostOneCollectible (applyPowerUpEffect k c now s)) := by
  refine ⟨?_, ?_, ?_, ?_⟩
  · intro draws s' h
    unfold initGame at h
    split at h
    · exact absurd h (by simp)
    · injection h with h
      subst h
      exact Or.inr rfl
  · intro r now s s' hm hupd
    cases hover : s.isGameOver with
    | true =>
      unfold update at hupd
      dsimp only at hupd
      rw [hover] at hupd
      simp only [if_true, Option.some.injEq] at hupd
      subst hupd
      exact hm
    | false =>
      rw [update_eq_latch_cleared] at hupd
      obtain ⟨-, -, -, hone, hkeep⟩ :=
        update_char r now { s with changingDirection := false } s' rfl hover hupd
      cases he : (tickEat r.mysteryChoice now
          { s with changingDirection := false }).2.2 with
      | true => exact hone he
      | false =>
        have h2 := tickEat_eaten_eq r.mysteryChoice now
          { s with changingDirection := false }
        rw [he] at h2
        have h2' := h2.symm
        rw [Bool.or_eq_false_iff] at h2'
        have hnone := tickEat_none_eq r.mysteryChoice now _ h2'.1 h2'.2
        obtain ⟨h3, h4⟩ := hkeep he
        rw [hnone] at h3 h4
        dsimp only at h3 h4
        rcases hm with hm | hm
        · exact Or.inl (h3.trans hm)
        · exact Or.inr (h4.trans hm)
  · intro t roll draws now cs s s' h
    exact generateCollectible_one_slot t roll draws now cs s s' h
  · intro k c now s
    unfold applyPowerUpEffect
    dsimp only
    split_ifs <;> exact Or.inr rfl

/-- Witness for C9: the tick from `runState` preserves the invariant. -/
theorem C9_at_most_one_collectible_witness :
    atMostOneCollectible runStateMoved :=
  C9_at_most_one_collectible.2.1 tickRand0 0 runState runStateMoved
    (Or.inr rfl) (by decide)

/-- Claim C10: `getVisibleCells` is empty whenever the active power-up is
absent or not blackoutMode; under blackoutMode it contains exactly the
in-canvas cells offset from the head by grid multiples `(dx, dy)` with
`dx² + dy² ≤ 9` — Euclidean distance at most 3 grid units (the source's
`Math.sqrt(dx*dx+dy*dy) <= 3` on integer offsets is exactly this test). -/
theorem C10_visible_cells (apu : Option ActivePowerUp) (headPos c : Pos) :
    (isActiveType apu blackoutMode = false → getVisibleCells apu headPos = [])
    ∧ (isActiveType apu blackoutMode = true →
        (c ∈ getVisibleCells apu headPos ↔
          (∃ dx dy : Int, dx * dx + dy * dy ≤ 9
              ∧ c.x = headPos.x + dx * GRID_SIZE
              ∧ c.y = headPos.y + dy * GRID_SIZE)
          ∧ 0 ≤ c.x ∧ c.x < CANVAS_WIDTH ∧ 0 ≤ c.y ∧ c.y < CANVAS_HEIGHT)) := by
  constructor
  · intro h
    simp [getVisibleCells, h]
  · intro h
    constructor
    · intro hc
      simp only [getVisibleCells, h, Bool.not_true, Bool.false_eq_true,
                 if_false, List.mem_flatMap] at hc
      obtain ⟨dx, hdx, dy, hdy, hcc⟩ := hc
      by_cases h9 : dx * dx + dy * dy ≤ 9
      · rw [if_pos h9] at hcc
        by_cases hb : 0 ≤ headPos.x + dx * GRID_SIZE
            ∧ headPos.x + dx * GRID_SIZE < CANVAS_WIDTH
            ∧ 0 ≤ headPos.y + dy * GRID_SIZE
            ∧ headPos.y + dy * GRID_SIZE < CANVAS_HEIGHT
        · rw [if_pos hb] at hcc
          simp only [List.mem_singleton] at hcc
          subst hcc
          exact ⟨⟨dx, dy, h9, rfl, rfl⟩, hb.1, hb.2.1, hb.2.2.1, hb.2.2.2⟩
        · rw [if_neg hb] at hcc
          exact absurd hcc (List.not_mem_nil c)
      · rw [if_neg h9] at hcc
        exact absurd hcc (List.not_mem_nil c)
    · rintro ⟨⟨dx, dy, h9, hcx, hcy⟩, hb1, hb2, hb3, hb4⟩
      simp only [getVisibleCells, h, Bool.not_true, Bool.false_eq_true,
                 if_false, List.mem_flatMap]
      have hdx : dx ∈ visionOffsets := by
        have hd : -3 ≤ dx ∧ dx ≤ 3 := by
          constructor <;> nlinarith [mul_self_nonneg dy]
        simp only [visionOffsets, List.mem_cons, List.mem_singleton]
        omega
      have hdy : dy ∈ visionOffsets := by
        have hd : -3 ≤ dy ∧ dy ≤ 3 := by
          constructor <;> nlinarith [mul_self_nonneg dx]
        simp only [visionOffsets, List.mem_cons, List.mem_singleton]
        omega
      refine ⟨dx, hdx, dy, hdy, ?_⟩
      rw [if_pos h9, if_pos ⟨by omega, by omega, by omega, by omega⟩]
      simp only [List.mem_singleton]
      cases c
      simp only [Pos.mk.injEq] at hcx hcy ⊢
      exact ⟨hcx, hcy⟩

/-- An active blackoutMode power-up used as a concrete witness input. -/
def blackoutActive : ActivePowerUp :=
  { type := blackoutMode, startTime := 0, endTime := 8000, isInstant := false,
    x := 0, y := 0 }

/-- Witness for C10: the cell `(40, 40)` (offset `(2, 2)`, distance
`√8 < 3`) is visible from head `(0, 0)` under blackout. -/
theorem C10_visible_cells_witness :
    { x := 40, y := 40 } ∈ getVisibleCells (some blackoutActive) { x := 0, y := 0 } :=
  ((C10_visible_cells (some blackoutActive) { x := 0, y := 0 }
      { x := 40, y := 40 }).2 rfl).mpr
    ⟨⟨2, 2, by decide, by decide, by decide⟩, by decide, by decide, by decide,
      by decide⟩




/-- Claim C7 as amended: the magnet sub-tick moves the food one grid
step toward the head along the x-axis whenever the x-offset is at least
one grid unit — regardless of which axis has the larger offset —
otherwise along the y-axis when the y-offset is at least one grid unit,
otherwise not at all; the result is clamped to the canvas, so food at an
in-bounds cell stays in bounds. -/
theorem C7_amended_magnet_step (head f : Pos)
    (hf : 0 ≤ f.x ∧ f.x ≤ CANVAS_WIDTH - GRID_SIZE
      ∧ 0 ≤ f.y ∧ f.y ≤ CANVAS_HEIGHT - GRID_SIZE)
    (hh : 0 ≤ head.x ∧ head.x ≤ CANVAS_WIDTH - GRID_SIZE
      ∧ 0 ≤ head.y ∧ head.y ≤ CANVAS_HEIGHT - GRID_SIZE) :
    (0 ≤ (magnetStep head f).x ∧ (magnetStep head f).x ≤ CANVAS_WIDTH - GRID_SIZE
      ∧ 0 ≤ (magnetStep head f).y ∧ (magnetStep head f).y ≤ CANVAS_HEIGHT - GRID_SIZE)
    ∧ (GRID_SIZE ≤ |head.x - f.x| →
        magnetStep head f
          = { x := f.x + (if 0 < head.x - f.x then GRID_SIZE else -GRID_SIZE), y := f.y })
    ∧ (|head.x - f.x| < GRID_SIZE → GRID_SIZE ≤ |head.y - f.y| →
        magnetStep head f
          = { x := f.x, y := f.y + (if 0 < head.y - f.y then GRID_SIZE else -GRID_SIZE) })
    ∧ (|head.x - f.x| < GRID_SIZE → |head.y - f.y| < GRID_SIZE →
        magnetStep head f = f) := by
  obtain ⟨hx, hy⟩ := head
  obtain ⟨fx, fy⟩ := f
  obtain ⟨hf1, hf2, hf3, hf4⟩ := hf
  obtain ⟨hh1, hh2, hh3, hh4⟩ := hh
  simp only [CANVAS_WIDTH, CANVAS_HEIGHT, GRID_SIZE] at *
  have hax := abs_cases (hx - fx)
  have hay := abs_cases (hy - fy)
  unfold magnetStep
  simp only [CANVAS_WIDTH, CANVAS_HEIGHT, GRID_SIZE]
  refine ⟨?_, ?_, ?_, ?_⟩
  · split_ifs <;> dsimp only <;> omega
  · intro h1
    split_ifs <;> simp only [Pos.mk.injEq] <;> omega
  · intro h1 h2
    split_ifs <;> simp only [Pos.mk.injEq] <;> omega
  · intro h1 h2
    split_ifs <;> simp only [Pos.mk.injEq] <;> omega

/-- Witness for C7 as amended: head `(100, 200)`, food `(40, 200)` — the
food moves one grid step right, toward the head. -/
theorem C7_amended_magnet_step_witness :
    magnetStep { x := 100, y := 200 } { x := 40, y := 200 }
      = { x := 40 + (if (0 : Int) < 100 - 40 then GRID_SIZE else -GRID_SIZE),
          y := 200 } :=
  (C7_amended_magnet_step { x := 100, y := 200 } { x := 40, y := 200 }
    (by decide) (by decide)).2.1 (by decide)

/-- Witness for C8: a mystery box collected with no previous active
power-up, redirect index 0 (ghostTime). -/
theorem C8_mystery_box_redirect_witness :
    (∀ a, (applyPowerUpEffect mysteryBox 0 0 runState).activePowerUp = some a →
        ¬ a.type = mysteryBox)
    ∧ applyPowerUpEffect mysteryBox 0 0 runState
        = applyPowerUpEffect
            (availablePowerUps.get ⟨(0 : Fin 7).1, (0 : Fin 7).2⟩) 0 0 runState
    ∧ ¬ availablePowerUps.get ⟨(0 : Fin 7).1, (0 : Fin 7).2⟩ = mysteryBox :=
  C8_mystery_box_redirect 0 0 runState (fun a ha => by simp [runState] at ha)

end Slitherpunk
